import Mathlib

/-!
# A verification model of `src/fitness_app.py`

This file gives a shallow embedding of the non-UI logic of the fitness
application: the data store (`DataManager`), its history/statistics engine
(`add_workout_to_history`, `get_weekly_stats`), the countdown timer
(`ExerciseTimer`), the workout-session loop (`_next_exercise` /
`_start_rest` / `_complete_workout`), and the exercise-library form handler
(`_add_exercise`).

Modelling conventions:
* Python floats are modelled as exact rationals (`ℚ`); Python ints as
  `Nat`/`ℤ`.
* Calendar dates (the `"%Y-%m-%d"` strings) are modelled as integer day
  numbers, with the epoch chosen so that day `0` is a Monday; subtraction of
  two dates in whole days is integer subtraction, and `date.weekday()`
  (Monday = 0 … Sunday = 6) is `date % 7`.
* Python dicts keyed by strings are modelled as insertion-ordered
  association lists; `dict[k] = v` replaces in place when the key exists and
  appends otherwise.
* `round(x, 1)` is Python's round-half-to-even at one decimal, modelled
  exactly on `ℚ` by `pyRound1`.
-/

/-- An exercise-library entry: the value of `data["exercises"][name]`. -/
structure Exercise where
  category : String
  calories_per_rep : ℚ
  icon : String
deriving DecidableEq, Repr

/-- One step of a workout template: an element of `workout["exercises"]`. -/
structure Step where
  name : String
  sets : Nat
  reps : Nat
  rest : Nat
deriving DecidableEq, Repr

/-- A workout template: the value of `data["workouts"][name]`. -/
structure WorkoutTemplate where
  exercises : List Step
  description : String
deriving DecidableEq, Repr

/-- One history entry as built by `add_workout_to_history` (the wall-clock
`timestamp` field is not modelled; it is never read by the logic). -/
structure HistoryEntry where
  date : ℤ
  workout_name : String
  exercises : List Step
  duration_minutes : Nat
  calories_burned : ℚ
deriving DecidableEq, Repr

/-- The `user_stats` record. -/
structure UserStats where
  total_workouts : Nat
  total_calories : ℚ
  total_time_minutes : Nat
  streak : Nat
  best_streak : Nat
  last_workout_date : Option ℤ
deriving DecidableEq, Repr

/-- The whole persisted document (`DataManager.data`). -/
structure FitnessData where
  exercises : List (String × Exercise)
  workouts : List (String × WorkoutTemplate)
  history : List HistoryEntry
  goals_weekly_workouts : Nat
  goals_daily_calories : Nat
  user_stats : UserStats
deriving DecidableEq, Repr

/-- Ordered-dict lookup (`d.get(k)` on a Python dict). -/
def lookupDict {β : Type} (l : List (String × β)) (k : String) : Option β :=
  match l with
  | [] => none
  | (k', v) :: rest => if k' = k then some v else lookupDict rest k

/-- Ordered-dict assignment (`d[k] = v` on a Python dict): replaces the value
in place when the key is present, appends at the end otherwise. -/
def dictInsert {β : Type} (l : List (String × β)) (k : String) (v : β) :
    List (String × β) :=
  match l with
  | [] => [(k, v)]
  | (k', v') :: rest =>
      if k' = k then (k, v) :: rest else (k', v') :: dictInsert rest k v

/-- Python `round(q, 1)`: round to one decimal, ties to even, exactly on `ℚ`. -/
def pyRound1 (q : ℚ) : ℚ :=
  let x := 10 * q
  let f : ℤ := ⌊x⌋
  let r := x - (f : ℚ)
  let n : ℤ :=
    if r < 1 / 2 then f
    else if 1 / 2 < r then f + 1
    else if f % 2 = 0 then f else f + 1
  (n : ℚ) / 10

/-- The `DEFAULT_EXERCISES` seed table of `DataManager`. -/
def DEFAULT_EXERCISES : List (String × Exercise) :=
  [("שכיבות סמיכה", ⟨"חזה", 1 / 2, "💪"⟩),
   ("סקוואט", ⟨"רגליים", 3 / 5, "🦵"⟩),
   ("מתח", ⟨"גב", 1, "🏋️"⟩),
   ("כפיפות בטן", ⟨"בטן", 3 / 10, "🔥"⟩),
   ("לאנג'ים", ⟨"רגליים", 1 / 2, "🦵"⟩),
   ("פלאנק", ⟨"בטן", 1 / 10, "🧘"⟩),
   ("בורפי", ⟨"קרדיו", 3 / 2, "⚡"⟩),
   ("ג'אמפינג ג'ק", ⟨"קרדיו", 1 / 5, "🏃"⟩),
   ("דיפס", ⟨"זרועות", 7 / 10, "💪"⟩),
   ("כתפיים צד", ⟨"כתפיים", 2 / 5, "🎯"⟩)]

/-- The `DEFAULT_WORKOUTS` seed table of `DataManager`. -/
def DEFAULT_WORKOUTS : List (String × WorkoutTemplate) :=
  [("אימון בוקר מהיר",
    ⟨[⟨"ג'אמפינג ג'ק", 3, 20, 30⟩, ⟨"שכיבות סמיכה", 3, 10, 60⟩,
      ⟨"סקוואט", 3, 15, 45⟩, ⟨"כפיפות בטן", 3, 20, 30⟩],
     "אימון קצר ואינטנסיבי לבוקר"⟩),
   ("אימון חזה וזרועות",
    ⟨[⟨"שכיבות סמיכה", 4, 12, 60⟩, ⟨"דיפס", 3, 10, 60⟩,
      ⟨"שכיבות סמיכה", 3, 8, 90⟩],
     "אימון ממוקד לפלג גוף עליון"⟩),
   ("אימון רגליים",
    ⟨[⟨"סקוואט", 4, 15, 60⟩, ⟨"לאנג'ים", 3, 12, 45⟩, ⟨"סקוואט", 3, 20, 60⟩],
     "אימון מקיף לרגליים"⟩),
   ("אימון קרדיו HIIT",
    ⟨[⟨"בורפי", 4, 10, 30⟩, ⟨"ג'אמפינג ג'ק", 4, 30, 20⟩,
      ⟨"סקוואט", 4, 20, 30⟩, ⟨"בורפי", 3, 8, 45⟩],
     "אימון אינטרוולים אינטנסיבי"⟩)]

/-- The zeroed `user_stats` record of `DataManager.load_data`'s default. -/
def default_stats : UserStats :=
  { total_workouts := 0
    total_calories := 0
    total_time_minutes := 0
    streak := 0
    best_streak := 0
    last_workout_date := none }

/-- The default data structure returned by `DataManager.load_data` when no
file exists (or the file is unreadable). -/
def default_data : FitnessData :=
  { exercises := DEFAULT_EXERCISES
    workouts := DEFAULT_WORKOUTS
    history := []
    goals_weekly_workouts := 3
    goals_daily_calories := 300
    user_stats := default_stats }

/-- The `user_stats` update performed by `DataManager.add_workout_to_history`
(lines 144–163): totals are incremented, the streak follows the
`diff == 1` / `diff > 1` branches, `best_streak` takes the max, and
`last_workout_date` is set to today.  Note the stats accumulate the
*unrounded* `calories_burned`. -/
def statsUpdate (s : UserStats) (today : ℤ) (duration_minutes : Nat)
    (calories_burned : ℚ) : UserStats :=
  let streak1 : Nat :=
    match s.last_workout_date with
    | some last =>
        let diff := today - last
        if diff = 1 then s.streak + 1
        else if 1 < diff then 1
        else s.streak
    | none => 1
  { total_workouts := s.total_workouts + 1
    total_calories := s.total_calories + calories_burned
    total_time_minutes := s.total_time_minutes + duration_minutes
    streak := streak1
    best_streak := max streak1 s.best_streak
    last_workout_date := some today }

/-- `DataManager.add_workout_to_history`: appends a history entry (whose
`calories_burned` field is `round(calories_burned, 1)`) and updates
`user_stats` via `statsUpdate`.  `today` is the current calendar day passed
explicitly (the source reads `datetime.now()`). -/
def add_workout_to_history (d : FitnessData) (today : ℤ) (workout_name : String)
    (exercises_completed : List Step) (duration_minutes : Nat)
    (calories_burned : ℚ) : FitnessData :=
  let entry : HistoryEntry :=
    { date := today
      workout_name := workout_name
      exercises := exercises_completed
      duration_minutes := duration_minutes
      calories_burned := pyRound1 calories_burned }
  { d with
    history := d.history ++ [entry]
    user_stats := statsUpdate d.user_stats today duration_minutes calories_burned }

/-- Replaying the ledger: folds the `statsUpdate` of each stored history
entry (date, duration, stored calories) over the empty stats state. -/
def replayStats (entries : List HistoryEntry) : UserStats :=
  entries.foldl
    (fun s e => statsUpdate s e.date e.duration_minutes e.calories_burned)
    default_stats

/-- `date.weekday()` in the day-number model with Monday-epoch: Monday = 0 …
Sunday = 6. -/
def weekday (d : ℤ) : Nat := (d % 7).toNat

/-- Increment the `i`-th counter of a breakdown list (the
`daily_breakdown[day_idx] += 1` of `get_weekly_stats`). -/
def bumpAt : List Nat → Nat → List Nat
  | [], _ => []
  | x :: xs, 0 => (x + 1) :: xs
  | x :: xs, n + 1 => x :: bumpAt xs n

/-- The accumulator of the `for entry in history` loop in `get_weekly_stats`. -/
structure WeeklyAcc where
  workouts : Nat
  calories : ℚ
  minutes : Nat
  daily_breakdown : List Nat
deriving DecidableEq, Repr

/-- One iteration of the `get_weekly_stats` loop: an entry is counted exactly
when `entry_date >= week_start` (the source has no upper bound). -/
def weeklyStep (week_start : ℤ) (acc : WeeklyAcc) (e : HistoryEntry) : WeeklyAcc :=
  if week_start ≤ e.date then
    { workouts := acc.workouts + 1
      calories := acc.calories + e.calories_burned
      minutes := acc.minutes + e.duration_minutes
      daily_breakdown := bumpAt acc.daily_breakdown (weekday e.date) }
  else acc

/-- The record returned by `DataManager.get_weekly_stats`. -/
structure WeeklyStats where
  workouts : Nat
  calories : ℚ
  minutes : Nat
  daily_breakdown : List Nat
  goal_progress : ℚ
deriving DecidableEq, Repr

/-- `DataManager.get_weekly_stats`: `week_start` is the Monday of `today`'s
week (`today - timedelta(days=today.weekday())` at midnight); the loop sums
over entries with `entry_date >= week_start`; `goal_progress` is
`weekly_workouts / max(goals["weekly_workouts"], 1) * 100`. -/
def get_weekly_stats (d : FitnessData) (today : ℤ) : WeeklyStats :=
  let week_start := today - today % 7
  let acc := d.history.foldl (weeklyStep week_start) ⟨0, 0, 0, List.replicate 7 0⟩
  { workouts := acc.workouts
    calories := pyRound1 acc.calories
    minutes := acc.minutes
    daily_breakdown := acc.daily_breakdown
    goal_progress :=
      (acc.workouts : ℚ) / ((max d.goals_weekly_workouts 1 : Nat) : ℚ) * 100 }

/-- Whether the timer thread observes `running = False` (a prior `stop()`)
at its `i`-th check of the loop condition.  `stopAt = some k` means the
stop call lands between checks `k - 1` and `k`; `none` means `stop()` is
never called during the countdown. -/
def stopObserved (stopAt : Option Nat) (i : Nat) : Bool :=
  match stopAt with
  | none => false
  | some k => decide (k ≤ i)

/-- The sequence of callbacks delivered by `ExerciseTimer._run` for a
countdown started with `rem` seconds remaining, with `i` the index of the
next loop-condition check.  Each completed second emits
`(seconds_remaining, True)` after the decrement; when the loop exits with
`running` still true (natural completion) the terminal `(0, False)` is
emitted; when the loop exits because `stop()` cleared `running`, the
`if self.running` guard skips the terminal callback.  `pause()` only
stretches wall-clock time between emissions and is elided. -/
def timerRun (stopAt : Option Nat) (rem i : Nat) : List (Nat × Bool) :=
  match rem with
  | 0 => if stopObserved stopAt i then [] else [(0, false)]
  | r + 1 =>
      if stopObserved stopAt i then []
      else (r, true) :: timerRun stopAt r (i + 1)

/-- Calories credited when a set of `st` is presented
(`exercise_data.get('calories_per_rep', 0.5) * current['reps']` in
`FitnessApp._next_exercise`, where `exercise_data` is
`exercises.get(name, {})`). -/
def caloriesForSet (exercises : List (String × Exercise)) (st : Step) : ℚ :=
  (((lookupDict exercises st.name).map Exercise.calories_per_rep).getD (1 / 2)) *
    st.reps

/-- The observable trace of a no-skip workout run: how many sets were
presented ("Active"), how many rest periods were entered ("Resting"), and
the accumulated `calories_burned`. -/
structure SessionTrace where
  activeCount : Nat
  restCount : Nat
  calories : ℚ
deriving DecidableEq, Repr

/-- Combine two session-trace segments. -/
def SessionTrace.append (a b : SessionTrace) : SessionTrace :=
  ⟨a.activeCount + b.activeCount, a.restCount + b.restCount,
   a.calories + b.calories⟩

/-- The `_next_exercise` / `_start_rest` cycle within one template step, with
`k` sets still to present (`k = sets + 1 - current_set`): when
`current_set > sets` nothing happens (the engine moves to the next step);
otherwise the set is presented (one "Active" status, calories credited) and
then `_start_rest` runs unconditionally (one "Resting" status, timer
started), after whose terminal callback the cycle repeats. -/
def runStepFrom (exercises : List (String × Exercise)) (st : Step) :
    Nat → SessionTrace
  | 0 => ⟨0, 0, 0⟩
  | k + 1 =>
      SessionTrace.append ⟨1, 1, caloriesForSet exercises st⟩
        (runStepFrom exercises st k)

/-- A complete no-skip run of `_next_exercise` over a template's step list,
starting from `current_exercise_index = 0`, `current_set = 1` as set by
`_start_workout`; when the index passes the last step the engine calls
`_complete_workout`. -/
def runWorkout (exercises : List (String × Exercise)) (steps : List Step) :
    SessionTrace :=
  steps.foldl
    (fun tr st => tr.append (runStepFrom exercises st st.sets)) ⟨0, 0, 0⟩

/-- `FitnessApp._complete_workout`'s call into the ledger: the duration is
clamped to `max(duration, 1)` and the accumulated calories are passed
through to `add_workout_to_history`. -/
def completeWorkout (d : FitnessData) (today : ℤ) (workout_name : String)
    (steps : List Step) (elapsedMinutes : Nat) (calories : ℚ) : FitnessData :=
  add_workout_to_history d today workout_name steps (max elapsedMinutes 1)
    calories

/-- Python `str.strip()`: drop whitespace from both ends. -/
def pyStrip (s : String) : String :=
  ((s.toList.dropWhile Char.isWhitespace).reverse.dropWhile
      Char.isWhitespace).reverse.asString

/-- Digit list to number, most significant first. -/
def digitsVal (cs : List Char) : Nat :=
  cs.foldl (fun a c => a * 10 + (c.toNat - 48)) 0

/-- Python `float()` on an unsigned body: digits with at most one decimal
point and at least one digit (`"1"`, `"1."`, `".5"`, `"1.5"`); anything
else raises `ValueError` (`none`).  The exponent / `inf` / `nan` /
underscore forms of the full grammar are not modelled. -/
def pyFloatCore (cs : List Char) : Option ℚ :=
  let ip := cs.takeWhile Char.isDigit
  let rest := cs.dropWhile Char.isDigit
  match rest with
  | [] => if ip.isEmpty then none else some (digitsVal ip : ℚ)
  | '.' :: fp =>
      if fp.all Char.isDigit && (!ip.isEmpty || !fp.isEmpty) then
        some ((digitsVal ip : ℚ) + (digitsVal fp : ℚ) / (10 ^ fp.length : ℚ))
      else none
  | _ => none

/-- Python `float(s)`: strips surrounding whitespace, then an optional sign
followed by an unsigned decimal body.  Negative numbers parse fine — there
is no non-negativity check anywhere. -/
def pyFloat (s : String) : Option ℚ :=
  match (pyStrip s).toList with
  | '-' :: rest => (pyFloatCore rest).map Neg.neg
  | '+' :: rest => pyFloatCore rest
  | rest => pyFloatCore rest

/-- `FitnessApp._add_exercise` on the three form strings: strips name and
category, tries `float(calories)` (returning failure on `ValueError`), then
rejects empty name/category, and otherwise assigns
`data["exercises"][name] = {category, calories, "💪"}` and saves.  The
boolean is `true` on success, `false` when a validation message was shown
(in which case the store is untouched). -/
def add_exercise (d : FitnessData) (name_input category_input calories_input :
    String) : FitnessData × Bool :=
  let name := pyStrip name_input
  let category := pyStrip category_input
  match pyFloat calories_input with
  | none => (d, false)
  | some calories =>
      if name = "" ∨ category = "" then (d, false)
      else
        ({ d with
            exercises := dictInsert d.exercises name ⟨category, calories, "💪"⟩ },
         true)

/-- Modelled from the spec: the calendar-week window of §4.3 ("Monday 00:00
of the reference date's week through the instant before the next Monday"),
used only to state what the spec demands of `get_weekly_stats`. -/
def inSpecWeek (today date : ℤ) : Prop :=
  today - today % 7 ≤ date ∧ date < today - today % 7 + 7

instance (today date : ℤ) : Decidable (inSpecWeek today date) := by
  unfold inSpecWeek; infer_instance

/-- N `recordSession` calls on consecutive calendar days `start`,
`start + 1`, …, starting from the default data, with per-call workout
names, step lists, durations and calories given by the argument
functions. -/
def replayDaily (start : ℤ) (wn : Nat → String) (exs : Nat → List Step)
    (dm : Nat → Nat) (cb : Nat → ℚ) : Nat → FitnessData
  | 0 => default_data
  | n + 1 =>
      add_workout_to_history (replayDaily start wn exs dm cb n) (start + n)
        (wn n) (exs n) (dm n) (cb n)

/-- The arguments of one `add_workout_to_history` call. -/
structure RecordCall where
  today : ℤ
  workout_name : String
  exercises : List Step
  duration_minutes : Nat
  calories_burned : ℚ
deriving DecidableEq, Repr

/-- Apply a sequence of `add_workout_to_history` calls to a data state. -/
def applyCalls (d : FitnessData) : List RecordCall → FitnessData
  | [] => d
  | c :: cs =>
      applyCalls
        (add_workout_to_history d c.today c.workout_name c.exercises
          c.duration_minutes c.calories_burned) cs

/-- Agreement of two stats records on every field except `total_calories`. -/
def UserStats.agreesExceptCalories (s t : UserStats) : Prop :=
  s.total_workouts = t.total_workouts ∧
  s.total_time_minutes = t.total_time_minutes ∧
  s.streak = t.streak ∧
  s.best_streak = t.best_streak ∧
  s.last_workout_date = t.last_workout_date

theorem lookupDict_dictInsert_self {β : Type} (l : List (String × β))
    (k : String) (v : β) : lookupDict (dictInsert l k v) k = some v := by
  induction l with
  | nil => simp [dictInsert, lookupDict]
  | cons p rest ih =>
      obtain ⟨k', v'⟩ := p
      by_cases h : k' = k
      · simp [dictInsert, h, lookupDict]
      · simp [dictInsert, h, lookupDict, ih]

theorem lookupDict_dictInsert_ne {β : Type} (l : List (String × β))
    (k m : String) (v : β) (h : m ≠ k) :
    lookupDict (dictInsert l k v) m = lookupDict l m := by
  have hk : k ≠ m := Ne.symm h
  induction l with
  | nil => simp [dictInsert, lookupDict, hk]
  | cons p rest ih =>
      obtain ⟨k', v'⟩ := p
      by_cases h1 : k' = k
      · subst h1
        simp [dictInsert, lookupDict, hk]
      · simp [dictInsert, h1, lookupDict, ih]

/-- Claim C1: `add_workout_to_history` updates the streak by the spec's
transition rule.  For every prior state: with no prior session the streak
becomes 1; with a whole-day gap of 1 it increases by 1; with a gap greater
than 1 it becomes 1; with a gap of 0 (second session the same day) it is
unchanged; and afterwards `last_workout_date` is today. -/
theorem streak_transition_rule (d : FitnessData) (today : ℤ) (wn : String)
    (exs : List Step) (dm : Nat) (cb : ℚ) :
    ((add_workout_to_history d today wn exs dm cb).user_stats.last_workout_date
        = some today) ∧
    (d.user_stats.last_workout_date = none →
      (add_workout_to_history d today wn exs dm cb).user_stats.streak = 1) ∧
    (∀ last, d.user_stats.last_workout_date = some last →
      (today - last = 1 →
        (add_workout_to_history d today wn exs dm cb).user_stats.streak
          = d.user_stats.streak + 1) ∧
      (1 < today - last →
        (add_workout_to_history d today wn exs dm cb).user_stats.streak = 1) ∧
      (today - last = 0 →
        (add_workout_to_history d today wn exs dm cb).user_stats.streak
          = d.user_stats.streak)) := by
  refine ⟨by simp [add_workout_to_history, statsUpdate], ?_, ?_⟩
  · intro h
    simp [add_workout_to_history, statsUpdate, h]
  · intro last h
    refine ⟨?_, ?_, ?_⟩ <;> intro hd <;>
      · simp only [add_workout_to_history, statsUpdate, h]
        split_ifs <;> omega

theorem streak_transition_rule_witness :
    (add_workout_to_history default_data 0 "w" [] 1 0).user_stats.streak = 1 :=
  (streak_transition_rule default_data 0 "w" [] 1 0).2.1 rfl

theorem replayDaily_succ_stats (start : ℤ) (wn : Nat → String)
    (exs : Nat → List Step) (dm : Nat → Nat) (cb : Nat → ℚ) (n : Nat) :
    (replayDaily start wn exs dm cb (n + 1)).user_stats.streak = n + 1 ∧
    (replayDaily start wn exs dm cb (n + 1)).user_stats.best_streak = n + 1 ∧
    (replayDaily start wn exs dm cb (n + 1)).user_stats.last_workout_date
      = some (start + n) := by
  induction n with
  | zero =>
      simp [replayDaily, default_data, default_stats, add_workout_to_history,
        statsUpdate]
  | succ k ih =>
      obtain ⟨h1, h2, h3⟩ := ih
      have hd1 : start + ((k + 1 : Nat) : ℤ) - (start + (k : ℤ)) = 1 := by
        push_cast
        ring
      rw [replayDaily]
      simp only [add_workout_to_history, statsUpdate, h3, h1, h2]
      rw [if_pos hd1]
      refine ⟨?_, ?_, ?_⟩ <;>
        first
        | rfl
        | trivial
        | exact Nat.max_eq_left (by omega)

/-- Claim C2: for every N and every sequence of N `recordSession` calls on N
consecutive calendar days starting from the default (empty) stats state,
after the N-th call the streak equals N and `best_streak` equals the
streak. -/
theorem consecutive_days_streak (start : ℤ) (wn : Nat → String)
    (exs : Nat → List Step) (dm : Nat → Nat) (cb : Nat → ℚ) (N : Nat) :
    (replayDaily start wn exs dm cb N).user_stats.streak = N ∧
    (replayDaily start wn exs dm cb N).user_stats.best_streak
      = (replayDaily start wn exs dm cb N).user_stats.streak := by
  cases N with
  | zero => simp [replayDaily, default_data, default_stats]
  | succ n =>
      obtain ⟨h1, h2, _⟩ := replayDaily_succ_stats start wn exs dm cb n
      exact ⟨h1, by rw [h1, h2]⟩

/-- Claim C3: a `recordSession` call with a whole-day gap greater than 1
from the last session sets the streak to exactly 1, and `best_streak` never
decreases across any single call. -/
theorem streak_reset_best_monotone :
    (∀ (d : FitnessData) (today last : ℤ) (wn : String) (exs : List Step)
        (dm : Nat) (cb : ℚ),
      d.user_stats.last_workout_date = some last → 1 < today - last →
      (add_workout_to_history d today wn exs dm cb).user_stats.streak = 1) ∧
    (∀ (d : FitnessData) (today : ℤ) (wn : String) (exs : List Step)
        (dm : Nat) (cb : ℚ),
      d.user_stats.best_streak ≤
        (add_workout_to_history d today wn exs dm cb).user_stats.best_streak) := by
  constructor
  · intro d today last wn exs dm cb h hd
    simp only [add_workout_to_history, statsUpdate, h]
    split_ifs <;> omega
  · intro d today wn exs dm cb
    simp only [add_workout_to_history, statsUpdate]
    exact le_max_right _ _

theorem streak_reset_best_monotone_witness :
    (add_workout_to_history (add_workout_to_history default_data 0 "w" [] 1 0)
      5 "w" [] 1 0).user_stats.streak = 1 :=
  streak_reset_best_monotone.1 (add_workout_to_history default_data 0 "w" [] 1 0)
    5 0 "w" [] 1 0 rfl (by norm_num)

theorem runStepFrom_eq (ex : List (String × Exercise)) (st : Step) (k : Nat) :
    runStepFrom ex st k = ⟨k, k, (k : ℚ) * caloriesForSet ex st⟩ := by
  induction k with
  | zero => simp [runStepFrom]
  | succ n ih =>
      simp only [runStepFrom, ih, SessionTrace.append, SessionTrace.mk.injEq]
      refine ⟨by omega, by omega, ?_⟩
      push_cast
      ring

theorem runWorkout_single (ex : List (String × Exercise)) (st : Step) :
    runWorkout ex [st]
      = ⟨st.sets, st.sets, (st.sets : ℚ) * caloriesForSet ex st⟩ := by
  simp [runWorkout, runStepFrom_eq, SessionTrace.append]

/-- Claim C4 (counterexample): on the template with the single step
`{name := "A", sets := 2, reps := 10, rest := 5}` a no-skip run enters a
rest period after *every* presented set, the final one included, so the
number of "Resting" periods is not 1 (it is 2). -/
theorem single_step_template_rest_cx :
    (runWorkout [("A", ⟨"cat", 1, "💪"⟩)] [⟨"A", 2, 10, 5⟩]).restCount ≠ 1 := by
  decide

/-- Claim C4 (amended): running the template
`{steps := [{name := "A", sets := 2, reps := 10, rest := 5}]}` to completion
without skipping presents exactly 2 "Active" sets and *2* "Resting" periods
(one after each set, the final one included), accumulates exactly
`2 * 10 * caloriesPerRep(A)` calories, and appends exactly one new history
record whose `duration_minutes` is at least 1. -/
theorem single_step_template_run (catalog : List (String × Exercise))
    (ex : Exercise) (d : FitnessData) (today : ℤ) (wn : String) (elapsed : Nat)
    (h : lookupDict catalog "A" = some ex) :
    (runWorkout catalog [⟨"A", 2, 10, 5⟩]).activeCount = 2 ∧
    (runWorkout catalog [⟨"A", 2, 10, 5⟩]).restCount = 2 ∧
    (runWorkout catalog [⟨"A", 2, 10, 5⟩]).calories
      = 2 * 10 * ex.calories_per_rep ∧
    (completeWorkout d today wn [⟨"A", 2, 10, 5⟩] elapsed
        (runWorkout catalog [⟨"A", 2, 10, 5⟩]).calories).history
      = d.history ++
        [⟨today, wn, [⟨"A", 2, 10, 5⟩], max elapsed 1,
          pyRound1 (2 * 10 * ex.calories_per_rep)⟩] ∧
    1 ≤ max elapsed 1 := by
  have hc : caloriesForSet catalog ⟨"A", 2, 10, 5⟩ = ex.calories_per_rep * 10 := by
    simp [caloriesForSet, h]
  have hcal : (runWorkout catalog [⟨"A", 2, 10, 5⟩]).calories
      = 2 * 10 * ex.calories_per_rep := by
    rw [runWorkout_single]
    simp [hc]
    ring
  refine ⟨by rw [runWorkout_single], by rw [runWorkout_single], hcal, ?_,
    le_max_right _ _⟩
  rw [hcal]
  simp [completeWorkout, add_workout_to_history]

theorem single_step_template_run_witness :
    (runWorkout [("A", ⟨"cat", 1, "💪"⟩)] [⟨"A", 2, 10, 5⟩]).activeCount = 2 ∧
    (runWorkout [("A", ⟨"cat", 1, "💪"⟩)] [⟨"A", 2, 10, 5⟩]).restCount = 2 ∧
    (runWorkout [("A", ⟨"cat", 1, "💪"⟩)] [⟨"A", 2, 10, 5⟩]).calories
      = 2 * 10 * (1 : ℚ) ∧
    (completeWorkout default_data 0 "w" [⟨"A", 2, 10, 5⟩] 0
        (runWorkout [("A", ⟨"cat", 1, "💪"⟩)] [⟨"A", 2, 10, 5⟩]).calories).history
      = default_data.history ++
        [⟨0, "w", [⟨"A", 2, 10, 5⟩], max 0 1, pyRound1 (2 * 10 * (1 : ℚ))⟩] ∧
    1 ≤ max 0 1 :=
  single_step_template_run [("A", ⟨"cat", 1, "💪"⟩)] ⟨"cat", 1, "💪"⟩
    default_data 0 "w" 0 rfl

/-- Claim C10: when a template step references an exercise name absent from
the exercise table, presenting its sets still succeeds (all `sets`
presentations happen) and each set credits the default `0.5` calories per
repetition, i.e. `0.5 * reps` per set. -/
theorem missing_exercise_default_calories (catalog : List (String × Exercise))
    (st : Step) (h : lookupDict catalog st.name = none) :
    caloriesForSet catalog st = 1 / 2 * (st.reps : ℚ) ∧
    (runWorkout catalog [st]).activeCount = st.sets ∧
    (runWorkout catalog [st]).calories
      = (st.sets : ℚ) * (1 / 2 * (st.reps : ℚ)) := by
  have hc : caloriesForSet catalog st = 1 / 2 * (st.reps : ℚ) := by
    simp [caloriesForSet, h]
  exact ⟨hc, by rw [runWorkout_single], by rw [runWorkout_single, hc]⟩

theorem missing_exercise_default_calories_witness :
    caloriesForSet [] ⟨"B", 3, 4, 5⟩ = 1 / 2 * ((4 : Nat) : ℚ) ∧
    (runWorkout [] [⟨"B", 3, 4, 5⟩]).activeCount = 3 ∧
    (runWorkout [] [⟨"B", 3, 4, 5⟩]).calories
      = ((3 : Nat) : ℚ) * (1 / 2 * ((4 : Nat) : ℚ)) :=
  missing_exercise_default_calories [] ⟨"B", 3, 4, 5⟩ rfl

theorem timerRun_none_terminal (rem i : Nat) :
    (timerRun none rem i).count (0, false) = 1 := by
  induction rem generalizing i with
  | zero => simp [timerRun, stopObserved]
  | succ r ih =>
      simp only [timerRun, stopObserved, if_false, List.count_cons, ih,
        Bool.false_eq_true]
      simp

theorem timerRun_stopped_terminal (rem i k : Nat) (h : k ≤ i + rem) :
    (timerRun (some k) rem i).count (0, false) = 0 := by
  induction rem generalizing i with
  | zero =>
      have hk : k ≤ i := by omega
      simp [timerRun, stopObserved, hk]
  | succ r ih =>
      by_cases hk : k ≤ i
      · simp [timerRun, stopObserved, hk]
      · have h2 := ih (i + 1) (by omega)
        simp only [timerRun, stopObserved]
        rw [if_neg (by simpa using hk)]
        simp [List.count_cons, h2]

theorem timerRun_latestop_terminal (rem i k : Nat) (h : i + rem < k) :
    (timerRun (some k) rem i).count (0, false) = 1 := by
  induction rem generalizing i with
  | zero =>
      have hk : ¬ k ≤ i := by omega
      simp [timerRun, stopObserved, hk]
  | succ r ih =>
      have hk : ¬ k ≤ i := by omega
      have h2 := ih (i + 1) (by omega)
      simp only [timerRun, stopObserved]
      rw [if_neg (by simpa using hk)]
      simp [List.count_cons, h2]

/-- Claim C9 (counterexample): a `stop()` observed before the countdown
reaches zero (here at check 2 of a 5-second countdown) makes the timer
thread's loop exit with `running` false, so the terminal `(0, false)`
callback is delivered zero times, not exactly once. -/
theorem timer_stop_no_terminal_cx :
    2 < 5 ∧ (timerRun (some 2) 5 0).count (0, false) = 0 := by
  exact ⟨by norm_num, by decide⟩

/-- Claim C9 (amended): a countdown that reaches zero on its own delivers
the terminal `(0, false)` callback exactly once (also when `stop()` arrives
only after the natural end), but a `stop()` observed before the countdown
reaches zero suppresses the terminal callback entirely: it is delivered
zero times, and the caller (`_skip_rest`) compensates by invoking the
engine directly. -/
theorem timer_terminal_callback (s k : Nat) :
    ((timerRun none s 0).count (0, false) = 1) ∧
    (k ≤ s → (timerRun (some k) s 0).count (0, false) = 0) ∧
    (s < k → (timerRun (some k) s 0).count (0, false) = 1) := by
  refine ⟨timerRun_none_terminal s 0, ?_, ?_⟩
  · intro h
    exact timerRun_stopped_terminal s 0 k (by omega)
  · intro h
    exact timerRun_latestop_terminal s 0 k (by omega)

theorem timer_terminal_callback_witness :
    (timerRun none 5 0).count (0, false) = 1 ∧
    (timerRun (some 2) 5 0).count (0, false) = 0 ∧
    (timerRun (some 9) 5 0).count (0, false) = 1 :=
  ⟨(timer_terminal_callback 5 2).1,
   (timer_terminal_callback 5 2).2.1 (by norm_num),
   (timer_terminal_callback 5 9).2.2 (by norm_num)⟩

theorem foldl_weeklyStep_all_early (ws : ℤ) (l : List HistoryEntry)
    (acc : WeeklyAcc) (h : ∀ e ∈ l, e.date < ws) :
    l.foldl (weeklyStep ws) acc = acc := by
  induction l generalizing acc with
  | nil => rfl
  | cons e rest ih =>
      have he : weeklyStep ws acc e = acc := by
        simp [weeklyStep, not_le.mpr (h e (by simp))]
      rw [List.foldl_cons, he]
      exact ih acc (fun x hx => h x (by simp [hx]))

/-- Claim C5 (counterexample): `get_weekly_stats` has no upper bound on the
date filter.  With the reference day 0 (a Monday, so the spec's week window
is days 0–6), a history whose only record is dated day 7 — the next Monday,
outside the calendar week — is still counted: the session count is 1, not
0 as the claim requires for a record dated later than the window. -/
theorem weekly_window_upper_cx :
    ¬ inSpecWeek 0 7 ∧
    (get_weekly_stats { default_data with history := [⟨7, "w", [], 30, 10⟩] }
        0).workouts = 1 ∧
    (get_weekly_stats default_data 0).workouts = 0 := by
  exact ⟨by decide, by decide, by decide⟩

/-- Claim C5 (amended): `get_weekly_stats` aggregates exactly the history
records with `date >= week_start` (the Monday of the reference date's
week).  A record dated *earlier* than week start contributes nothing to any
returned field — removing it from the history leaves the result unchanged —
but there is no upper bound, so records on or after the next Monday are
also counted. -/
theorem weekly_filter_lower_bound (d : FitnessData) (today : ℤ)
    (e : HistoryEntry) (h1 h2 : List HistoryEntry)
    (hd : d.history = h1 ++ e :: h2) (he : e.date < today - today % 7) :
    get_weekly_stats d today
      = get_weekly_stats { d with history := h1 ++ h2 } today := by
  have hstep : ∀ acc, weeklyStep (today - today % 7) acc e = acc := by
    intro acc
    simp [weeklyStep, not_le.mpr he]
  simp only [get_weekly_stats, hd, List.foldl_append, List.foldl_cons, hstep]

theorem weekly_filter_lower_bound_witness :
    get_weekly_stats { default_data with history := [⟨-3, "w", [], 30, 10⟩] } 0
      = get_weekly_stats { default_data with history := [] } 0 :=
  weekly_filter_lower_bound
    { default_data with history := [⟨-3, "w", [], 30, 10⟩] } 0
    ⟨-3, "w", [], 30, 10⟩ [] [] rfl (by norm_num)

/-- Claim C6 (counterexample): with reference day 0 the spec week is days
0–6; a history whose only record is dated day 8 contains zero sessions in
that week, yet `get_weekly_stats` returns `workouts = 1` (and a nonzero
Tuesday bucket), because the filter has no upper bound — contradicting the
claim that a zero-session week yields `workouts = 0` and all-zero
buckets. -/
theorem weekly_zero_week_cx :
    ¬ inSpecWeek 0 8 ∧
    (get_weekly_stats { default_data with history := [⟨8, "w", [], 30, 10⟩] }
        0).workouts = 1 ∧
    (get_weekly_stats { default_data with history := [⟨8, "w", [], 30, 10⟩] }
        0).daily_breakdown = [0, 1, 0, 0, 0, 0, 0] := by
  exact ⟨by decide, by decide, by decide⟩

/-- Claim C6 (amended): `goal_progress` always equals
`workouts / max(weekly_goal, 1) * 100`; and whenever *no* history record is
dated on or after the week's Monday (the code's notion of "zero sessions
this week"), the result has `workouts = 0`, `goal_progress = 0` and all
seven daily buckets zero — including when the weekly goal is 0.  (Because
the filter lacks an upper bound, a week empty in the spec's sense can still
count future-dated records; see the counterexample.) -/
theorem weekly_goal_progress (d : FitnessData) (today : ℤ) :
    (get_weekly_stats d today).goal_progress
      = ((get_weekly_stats d today).workouts : ℚ)
        / ((max d.goals_weekly_workouts 1 : Nat) : ℚ) * 100 ∧
    ((∀ e ∈ d.history, e.date < today - today % 7) →
      (get_weekly_stats d today).workouts = 0 ∧
      (get_weekly_stats d today).goal_progress = 0 ∧
      (get_weekly_stats d today).daily_breakdown = List.replicate 7 0) := by
  constructor
  · rfl
  · intro h
    have hfold := foldl_weeklyStep_all_early (today - today % 7) d.history
      ⟨0, 0, 0, List.replicate 7 0⟩ h
    simp only [get_weekly_stats]
    rw [hfold]
    refine ⟨rfl, by simp, rfl⟩

theorem weekly_goal_progress_witness :
    (get_weekly_stats default_data 0).workouts = 0 ∧
    (get_weekly_stats default_data 0).goal_progress = 0 ∧
    (get_weekly_stats default_data 0).daily_breakdown = List.replicate 7 0 :=
  (weekly_goal_progress default_data 0).2 (by simp [default_data])

theorem replayStats_append (l : List HistoryEntry) (e : HistoryEntry) :
    replayStats (l ++ [e])
      = statsUpdate (replayStats l) e.date e.duration_minutes
          e.calories_burned := by
  simp [replayStats, List.foldl_append]

theorem statsUpdate_agrees {s t : UserStats}
    (h : s.agreesExceptCalories t) (today : ℤ) (dm : Nat) (c c' : ℚ) :
    (statsUpdate s today dm c).agreesExceptCalories
      (statsUpdate t today dm c') := by
  obtain ⟨h1, h2, h3, h4, h5⟩ := h
  refine ⟨?_, ?_, ?_, ?_, ?_⟩ <;>
    simp [statsUpdate, UserStats.agreesExceptCalories, h1, h2, h3, h4, h5]

theorem applyCalls_replay_agrees (cs : List RecordCall) (d : FitnessData)
    (h : (replayStats d.history).agreesExceptCalories d.user_stats) :
    (replayStats (applyCalls d cs).history).agreesExceptCalories
      (applyCalls d cs).user_stats := by
  induction cs generalizing d with
  | nil => exact h
  | cons c rest ih =>
      rw [applyCalls]
      apply ih
      simp only [add_workout_to_history]
      rw [replayStats_append]
      exact statsUpdate_agrees h c.today c.duration_minutes
        (pyRound1 c.calories_burned) c.calories_burned

theorem applyCalls_replay_exact (cs : List RecordCall) (d : FitnessData)
    (hr : ∀ c ∈ cs, pyRound1 c.calories_burned = c.calories_burned)
    (h : replayStats d.history = d.user_stats) :
    replayStats (applyCalls d cs).history = (applyCalls d cs).user_stats := by
  induction cs generalizing d with
  | nil => exact h
  | cons c rest ih =>
      rw [applyCalls]
      apply ih _ (fun x hx => hr x (by simp [hx]))
      have hc : pyRound1 c.calories_burned = c.calories_burned :=
        hr c (by simp)
      simp only [add_workout_to_history]
      rw [replayStats_append, h]
      simp [hc]

/-- Claim C7 (counterexample): the stored stats are *not* always re-derivable
by replaying the ledger.  A single session with calories `0.26` stores
`round(0.26, 1) = 0.3` in the ledger entry but accumulates the unrounded
`0.26` into `user_stats.total_calories`, so replaying the ledger from the
empty state yields different stats. -/
theorem ledger_replay_cx :
    replayStats
        (add_workout_to_history default_data 0 "w" [] 1 (26 / 100)).history
      ≠ (add_workout_to_history default_data 0 "w" [] 1 (26 / 100)).user_stats := by
  intro h
  have h2 := congrArg UserStats.total_calories h
  simp [replayStats, add_workout_to_history, statsUpdate, default_data,
    default_stats, pyRound1] at h2
  norm_num [Int.fract] at h2

/-- Claim C7 (amended): after every sequence of `recordSession` calls from
the default state, replaying the appended ledger entries from the empty
stats state reproduces the stored `AggregateStats` exactly on every field
except `total_calories` (session count, minutes, streak, best streak, last
session date); it reproduces *all* fields, `total_calories` included,
whenever each call's calories value is already exact at one decimal — the
divergence being that ledger entries store `round(calories, 1)` while the
stats accumulate the unrounded value. -/
theorem ledger_replay_invariant (cs : List RecordCall) :
    (replayStats (applyCalls default_data cs).history).agreesExceptCalories
      (applyCalls default_data cs).user_stats ∧
    ((∀ c ∈ cs, pyRound1 c.calories_burned = c.calories_burned) →
      replayStats (applyCalls default_data cs).history
        = (applyCalls default_data cs).user_stats) := by
  constructor
  · exact applyCalls_replay_agrees cs default_data ⟨rfl, rfl, rfl, rfl, rfl⟩
  · intro hr
    exact applyCalls_replay_exact cs default_data hr rfl

theorem ledger_replay_invariant_witness :
    replayStats (applyCalls default_data [⟨0, "w", [], 1, 1 / 2⟩]).history
      = (applyCalls default_data [⟨0, "w", [], 1, 1 / 2⟩]).user_stats :=
  (ledger_replay_invariant [⟨0, "w", [], 1, 1 / 2⟩]).2 (by
    intro c hc
    rw [List.mem_singleton] at hc
    subst hc
    norm_num [pyRound1])

/-- Claim C8 (counterexample): `_add_exercise` checks only that the calories
string *parses* as a float — negative values pass.  With calories `"-1"`
(not a non-negative number) the operation succeeds and mutates the Catalog
Store, storing `calories_per_rep = -1`, instead of failing with a
validation error and leaving the store unchanged as the claim requires. -/
theorem add_exercise_negative_cx :
    pyFloat "-1" = some (-1) ∧
    lookupDict default_data.exercises "x" = none ∧
    (add_exercise default_data "x" "y" "-1").2 = true ∧
    lookupDict (add_exercise default_data "x" "y" "-1").1.exercises "x"
      = some ⟨"y", -1, "💪"⟩ := by
  exact ⟨by decide, by decide, by decide, by decide⟩

/-- Claim C8 (amended): `_add_exercise` fails (validation message, store
untouched) exactly when the calories string does not parse as a float or
the stripped name or category is empty — non-negativity is *not* checked,
so any parseable value, negative included, is accepted; on success it
stores the exercise under the stripped name, silently overwriting an entry
with the same name and leaving every other entry unchanged. -/
theorem add_exercise_validation (d : FitnessData) (n c cal : String) :
    (pyFloat cal = none → add_exercise d n c cal = (d, false)) ∧
    (∀ q, pyFloat cal = some q → (pyStrip n = "" ∨ pyStrip c = "") →
      add_exercise d n c cal = (d, false)) ∧
    (∀ q, pyFloat cal = some q → pyStrip n ≠ "" → pyStrip c ≠ "" →
      (add_exercise d n c cal).2 = true ∧
      lookupDict (add_exercise d n c cal).1.exercises (pyStrip n)
        = some ⟨pyStrip c, q, "💪"⟩ ∧
      (∀ m, m ≠ pyStrip n →
        lookupDict (add_exercise d n c cal).1.exercises m
          = lookupDict d.exercises m)) := by
  refine ⟨?_, ?_, ?_⟩
  · intro h
    simp [add_exercise, h]
  · intro q hq hempty
    simp [add_exercise, hq, hempty]
  · intro q hq hn hc
    simp only [add_exercise, hq]
    rw [if_neg (by simp [hn, hc])]
    refine ⟨rfl, ?_, ?_⟩
    · exact lookupDict_dictInsert_self d.exercises (pyStrip n) _
    · intro m hm
      exact lookupDict_dictInsert_ne d.exercises (pyStrip n) m _ hm

theorem add_exercise_validation_witness :
    (add_exercise default_data "x" "y" "2").2 = true ∧
    lookupDict (add_exercise default_data "x" "y" "2").1.exercises "x"
      = some ⟨"y", 2, "💪"⟩ ∧
    add_exercise default_data "x" "y" "abc" = (default_data, false) := by
  have h := (add_exercise_validation default_data "x" "y" "2").2.2 2
    (by decide) (by decide) (by decide)
  have h2 := (add_exercise_validation default_data "x" "y" "abc").1 (by decide)
  exact ⟨h.1, h.2.1, h2⟩
